import Mathlib

/-!
# UBToolWidget (OpenBoard, `src/gui/UBToolWidget.cpp`)

A shallow embedding of the tool widget: its positioning arithmetic, its
pointer-event handlers, chrome painting, script-bridge registration and
construction, followed by the properties established about them.

Modelling conventions.

* `qreal` coordinates are rationals and their arithmetic is exact, whereas the
  code computes in `double`. The properties below therefore either only compare
  coordinates (with each other or with `int` values, which `double` does
  exactly) or evaluate coordinate arithmetic at small integer inputs, where
  `double` arithmetic is exact as well. The one general statement that computes
  with coordinates, `mouseMoveEvent_pos`, is about the exact arithmetic and is
  applied at such inputs only. Nothing that depends on how `double` rounds is
  claimed.
* `int` members and pixmap sizes are integers; `/` on two `int`s is C++
  truncating division (`Int.tdiv`).
* A pointer that may be null is an `Option`; dereferencing a null pointer is the
  fault `Fault.nullDereference` (undefined behaviour in C++, not a reported
  error).
* Behaviour that belongs to the Qt base classes (`QGraphicsWidget`, `QObject`)
  or to collaborators whose sources are elsewhere is taken as a parameter
  (`BaseHandlers`, `Env`) or recorded as a `Call`.
-/

namespace OpenBoard

/-! ## Toolkit value types -/

/-- A point with `qreal` coordinates. -/
structure QPointF where
  x : ℚ
  y : ℚ
deriving DecidableEq

instance : Add QPointF := ⟨fun p q => ⟨p.x + q.x, p.y + q.y⟩⟩

instance : Sub QPointF := ⟨fun p q => ⟨p.x - q.x, p.y - q.y⟩⟩

/-- A rectangle given by its top-left corner and its size. -/
structure QRectF where
  x : ℚ
  y : ℚ
  width : ℚ
  height : ℚ
deriving DecidableEq

/-- The centre of a rectangle, as `QRectF::center()`. -/
def QRectF.center (r : QRectF) : QPointF :=
  ⟨r.x + r.width / 2, r.y + r.height / 2⟩

/-- A pixmap, of which only the `int` size is read. -/
structure QPixmap where
  width : Int
  height : Int
deriving DecidableEq

/-- The bit of `Qt::LeftButton` in a `Qt::MouseButtons` mask. -/
def Qt.LeftButton : Nat := 1

/-- A scene mouse event: position in widget-local coordinates, the mask of the
buttons held, and the acceptance flag. -/
structure QGraphicsSceneMouseEvent where
  pos : QPointF
  buttons : Nat
  accepted : Bool
deriving DecidableEq

/-- The kinds of `QEvent` the event filter distinguishes. -/
inductive QEventType
  | MouseMove
  | MouseButtonPress
  | MouseButtonRelease
  | Other
deriving DecidableEq

/-- An event as seen by `eventFilter`; `pos` and `buttons` are the `QMouseEvent`
fields read after the `static_cast`. -/
structure QEvent where
  type : QEventType
  pos : QPointF
  buttons : Nat
  accepted : Bool
deriving DecidableEq

/-- The inherited handlers, as far as the widget depends on them: the acceptance
flag that `QGraphicsWidget::mousePressEvent`, `mouseMoveEvent` and
`mouseReleaseEvent` leave on the event they are given, and the return value of
`QObject::eventFilter`. The widget does not set `ItemIsMovable`, so none of them
moves it. -/
structure BaseHandlers where
  mousePressEvent : QGraphicsSceneMouseEvent → Bool
  mouseMoveEvent : QGraphicsSceneMouseEvent → Bool
  mouseReleaseEvent : QGraphicsSceneMouseEvent → Bool
  eventFilter : Nat → QEvent → Bool

/-- Calls that leave the widget: to inherited handlers and to the board
controller. -/
inductive Call
  | QGraphicsWidget_mousePressEvent
  | QGraphicsWidget_mouseMoveEvent
  | QGraphicsWidget_mouseReleaseEvent
  | QObject_eventFilter
  | update
  | boardController_moveToolWidgetToScene
deriving DecidableEq

/-- Faults of the embedded code. -/
inductive Fault
  | nullDereference
deriving DecidableEq

/-! ## The content item -/

/-- The result of `UBGraphicsWidgetItem::widgetType` as the constructor
distinguishes it: `UBWidgetType::W3C`, `UBWidgetType::Apple`, or any other
value. -/
inductive UBWidgetType
  | W3C
  | Apple
  | Other
deriving DecidableEq

/-- The dynamic class of a content item. -/
inductive WidgetItemClass
  | UBGraphicsAppleWidgetItem
  | UBGraphicsW3CWidgetItem
deriving DecidableEq

/-- Objects bound into a page's script window object: the primary bridge (with
the scene it was created for), the secondary bridge (with the identity of the
item it wraps), and any object bound by code outside this file. -/
inductive JSObject
  | UBWidgetUniboardAPI (scene : Nat)
  | UBW3CWidgetAPI (item : Nat)
  | other (id : Nat)
deriving DecidableEq

/-- The state of a content item that the tool widget reads or writes, whatever
its class. `windowObject` is the name-to-object table of
`page()->mainFrame()`. -/
structure WidgetItemData where
  objectId : Nat
  preferredWidth : ℚ
  preferredHeight : ℚ
  canBeContent : Bool
  geometry : QRectF
  mainHtml : String
  acceptDrops : Bool
  pluginsEnabled : Bool
  opaquePaintEvent : Bool
  paletteBaseTransparent : Bool
  windowObjectClearedConnected : Bool
  eventFilterInstalled : Bool
  windowObject : List (String × JSObject)
  mapToItem : QPointF → QPointF

/-- A content item: its data and its dynamic class. -/
structure UBGraphicsWidgetItem extends WidgetItemData where
  cls : WidgetItemClass

/-- The test `dynamic_cast<UBGraphicsW3CWidgetItem*>(item) != 0`. -/
def UBGraphicsWidgetItem.isW3C (item : UBGraphicsWidgetItem) : Bool :=
  match item.cls with
  | .UBGraphicsW3CWidgetItem => true
  | .UBGraphicsAppleWidgetItem => false

/-- The method `QWebFrame::addToJavaScriptWindowObject`: binding a name that is
already bound replaces the earlier object. -/
def addToJavaScriptWindowObject (name : String) (obj : JSObject)
    (bindings : List (String × JSObject)) : List (String × JSObject) :=
  bindings.filter (fun b => b.1 != name) ++ [(name, obj)]

/-! ## Collaborators and statics -/

/-- What the widget reads from its collaborators: the frame-width setting, the
two icon resources, the active scene, the locator classifier and the
constructors of the two content-item classes. -/
structure Env where
  objectFrameWidth : Int
  closeSvg : QPixmap
  unpinSvg : QPixmap
  activeScene : Nat
  widgetType : String → UBWidgetType
  newItem : WidgetItemClass → String → WidgetItemData

/-- The static members `sClosePixmap` and `sUnpinPixmap`, null until the first
`initialize`. -/
structure Statics where
  sClosePixmap : Option QPixmap
  sUnpinPixmap : Option QPixmap
deriving DecidableEq

/-- The two icons as the event handlers and `paint` dereference them.
`initialize` runs in every constructor and sets both statics, so they are
non-null whenever a member function of an instance runs. -/
structure Icons where
  sClosePixmap : QPixmap
  sUnpinPixmap : QPixmap
deriving DecidableEq

/-- The icon a `drawPixmap` call is given. -/
inductive Icon
  | sClosePixmap
  | sUnpinPixmap
deriving DecidableEq

/-- Painter operations issued by `paint`; the first stands for the inherited
`QGraphicsWidget::paint`. -/
inductive PaintOp
  | QGraphicsWidget_paint
  | setRenderHintAntialiasing
  | setPenNoPen
  | setBrush (r g b a : Nat)
  | drawRoundedRect (rect : QRectF) (xRadius yRadius : ℚ)
  | drawPixmap (x y : Int) (pixmap : Icon)
deriving DecidableEq

/-! ## The tool widget -/

/-- The state of a tool widget: the members declared by the class and the part
of the inherited `QGraphicsWidget` state the code touches. -/
structure UBToolWidget where
  mGraphicsWidgetItem : Option UBGraphicsWidgetItem
  mShouldMoveWidget : Bool
  mMousePressPos : QPointF
  mFrameWidth : Int
  mContentMargin : Int
  pos : QPointF
  scale : ℚ
  visible : Bool
  activeWindow : Bool
  preferredWidth : ℚ
  preferredHeight : ℚ
  layoutMargin : Option Int
  layoutItems : List String
  activeSceneChangedConnected : Bool

/-- The outcome of an event handler: the widget, the event and the outgoing
calls, in order. -/
structure Handled (ε : Type) where
  widget : UBToolWidget
  event : ε
  calls : List Call

namespace UBToolWidget

/-- The inherited `QGraphicsItem::setPos`, which stores the position as is. -/
def QGraphicsItem_setPos (w : UBToolWidget) (p : QPointF) : UBToolWidget :=
  { w with pos := p }

/-- The overload `UBToolWidget::setPos(qreal x, qreal y)`. -/
def setPos (w : UBToolWidget) (x y : ℚ) : UBToolWidget :=
  w.QGraphicsItem_setPos ⟨(x - w.mContentMargin) * w.scale, (y - w.mContentMargin) * w.scale⟩

/-- The overload `UBToolWidget::setPos(const QPointF &point)`. -/
def setPosPoint (w : UBToolWidget) (point : QPointF) : UBToolWidget :=
  w.setPos point.x point.y

/-- The method `UBToolWidget::centerOn`. -/
def centerOn (w : UBToolWidget) (p : QPointF) : UBToolWidget :=
  w.QGraphicsItem_setPos (p - ⟨w.preferredWidth / 2, w.preferredHeight / 2⟩)

/-- The method `UBToolWidget::naturalCenter`. -/
def naturalCenter (w : UBToolWidget) : QPointF :=
  match w.mGraphicsWidgetItem with
  | some item => item.geometry.center
  | none => ⟨0, 0⟩

/-- The test `event->buttons() & Qt::LeftButton` read as a condition. -/
def leftButtonHeld (buttons : Nat) : Bool :=
  buttons &&& Qt.LeftButton != 0

/-- The handler `UBToolWidget::mousePressEvent`. -/
def mousePressEvent (base : BaseHandlers) (w : UBToolWidget)
    (event : QGraphicsSceneMouseEvent) : Handled QGraphicsSceneMouseEvent :=
  let event1 := { event with accepted := base.mousePressEvent event }
  let w1 := { w with mShouldMoveWidget := !event1.accepted && leftButtonHeld event1.buttons }
  let w2 := { w1 with mMousePressPos := event1.pos }
  let event2 := { event1 with accepted := true }
  ⟨w2, event2, [.QGraphicsWidget_mousePressEvent, .update]⟩

/-- The handler `UBToolWidget::mouseMoveEvent`. -/
def mouseMoveEvent (base : BaseHandlers) (w : UBToolWidget)
    (event : QGraphicsSceneMouseEvent) : Handled QGraphicsSceneMouseEvent :=
  let moved : UBToolWidget × QGraphicsSceneMouseEvent :=
    if w.mShouldMoveWidget && leftButtonHeld event.buttons then
      (w.setPosPoint (w.pos - w.mMousePressPos + event.pos), { event with accepted := true })
    else
      (w, event)
  ⟨moved.1, { moved.2 with accepted := base.mouseMoveEvent moved.2 },
    [.QGraphicsWidget_mouseMoveEvent]⟩

/-- The handler `UBToolWidget::mouseReleaseEvent`. The content item is
dereferenced once the close-icon test has failed. -/
def mouseReleaseEvent (base : BaseHandlers) (icons : Icons) (w : UBToolWidget)
    (event : QGraphicsSceneMouseEvent) : Except Fault (Handled QGraphicsSceneMouseEvent) :=
  let w1 := { w with mShouldMoveWidget := false }
  if event.pos.x ≥ 0 ∧ event.pos.x < icons.sClosePixmap.width
      ∧ event.pos.y ≥ 0 ∧ event.pos.y < icons.sClosePixmap.height then
    .ok ⟨{ w1 with visible := false }, { event with accepted := true }, []⟩
  else
    match w1.mGraphicsWidgetItem with
    | none => .error .nullDereference
    | some item =>
      if item.canBeContent = true ∧ event.pos.x ≥ w1.mContentMargin
          ∧ event.pos.x < w1.mContentMargin + icons.sUnpinPixmap.width
          ∧ event.pos.y ≥ 0 ∧ event.pos.y < icons.sUnpinPixmap.height then
        .ok ⟨w1, { event with accepted := true }, [.boardController_moveToolWidgetToScene]⟩
      else
        .ok ⟨w1, { event with accepted := base.mouseReleaseEvent event },
          [.QGraphicsWidget_mouseReleaseEvent]⟩

/-- The method `UBToolWidget::eventFilter`; the Boolean is its return value.
The comparison `obj == mGraphicsWidgetItem` is on object identities, and a null
content item equals no object. `QObject::eventFilter` leaves the event as it
is. -/
def eventFilter (base : BaseHandlers) (w : UBToolWidget) (obj : Nat) (event : QEvent) :
    Handled QEvent × Bool :=
  let standard : Handled QEvent × Bool :=
    (⟨w, event, [.QObject_eventFilter]⟩, base.eventFilter obj event)
  match w.mGraphicsWidgetItem with
  | some item =>
    if w.mShouldMoveWidget && obj == item.objectId && event.type == .MouseMove then
      if leftButtonHeld event.buttons then
        (⟨w.setPosPoint (w.pos - w.mMousePressPos + item.mapToItem event.pos),
          { event with accepted := true }, []⟩, true)
      else standard
    else standard
  | none => standard

/-- The method `UBToolWidget::initialize` (named `init` here). The icons are
created on first use, the margin is derived from the close icon and the
frame-width setting, and the content item is dereferenced from the
`setPreferredSize` line on. -/
def init (env : Env) (st : Statics) (w : UBToolWidget) :
    Except Fault (Statics × UBToolWidget) :=
  let closePixmap := match st.sClosePixmap with
    | some p => p
    | none => env.closeSvg
  let unpinPixmap := match st.sUnpinPixmap with
    | some p => p
    | none => env.unpinSvg
  let st1 : Statics := ⟨some closePixmap, some unpinPixmap⟩
  let frameWidth := env.objectFrameWidth
  let contentMargin := Int.tdiv closePixmap.width 2 + frameWidth
  match w.mGraphicsWidgetItem with
  | none => .error .nullDereference
  | some item =>
    let item1 : UBGraphicsWidgetItem :=
      { item with
        acceptDrops := false
        pluginsEnabled := true
        opaquePaintEvent := false
        paletteBaseTransparent := true
        windowObjectClearedConnected := true
        eventFilterInstalled := true }
    .ok (st1,
      { w with
        mFrameWidth := frameWidth
        mContentMargin := contentMargin
        layoutMargin := some contentMargin
        preferredWidth := item.preferredWidth + contentMargin * 2
        preferredHeight := item.preferredHeight + contentMargin * 2
        mGraphicsWidgetItem := some item1
        layoutItems := [item.mainHtml]
        activeSceneChangedConnected := true })

/-- The slot `UBToolWidget::javaScriptWindowObjectCleared`. -/
def javaScriptWindowObjectCleared (env : Env) (w : UBToolWidget) : Except Fault UBToolWidget :=
  let uniboardAPI := JSObject.UBWidgetUniboardAPI env.activeScene
  match w.mGraphicsWidgetItem with
  | none => .error .nullDereference
  | some item =>
    let item1 : UBGraphicsWidgetItem :=
      { item with windowObject := addToJavaScriptWindowObject "sankore" uniboardAPI item.windowObject }
    if item1.isW3C then
      let widgetAPI := JSObject.UBW3CWidgetAPI item1.objectId
      let item2 : UBGraphicsWidgetItem :=
        { item1 with
          windowObject := addToJavaScriptWindowObject "widget" widgetAPI item1.windowObject }
      .ok { w with mGraphicsWidgetItem := some item2 }
    else
      .ok { w with mGraphicsWidgetItem := some item1 }

/-- The method `UBToolWidget::paint`, as the list of painter operations it
issues. The content item is dereferenced only inside the active branch. -/
def paint (icons : Icons) (w : UBToolWidget) : Except Fault (List PaintOp) :=
  let ops : List PaintOp := [.QGraphicsWidget_paint]
  if w.activeWindow then
    let ops1 := ops ++
      [.setRenderHintAntialiasing, .setPenNoPen, .setBrush 127 127 127 127,
       .drawRoundedRect
          ⟨Int.tdiv icons.sClosePixmap.width 2, Int.tdiv icons.sClosePixmap.height 2,
            w.preferredWidth - icons.sClosePixmap.width, w.mFrameWidth⟩
          (Int.tdiv w.mFrameWidth 2) (Int.tdiv w.mFrameWidth 2),
       .drawPixmap 0 0 .sClosePixmap]
    match w.mGraphicsWidgetItem with
    | none => .error .nullDereference
    | some item =>
      if item.canBeContent then .ok (ops1 ++ [.drawPixmap w.mContentMargin 0 .sUnpinPixmap])
      else .ok ops1
  else
    .ok ops

/-- A widget as the member initialisers of either constructor leave it, before
the constructor body runs: the inherited state has the defaults of a new
`QGraphicsWidget`, and the two `int` members are not yet assigned (they are
written by `initialize` before anything reads them). -/
def fresh (item : Option UBGraphicsWidgetItem) : UBToolWidget :=
  { mGraphicsWidgetItem := item
    mShouldMoveWidget := false
    mMousePressPos := ⟨0, 0⟩
    mFrameWidth := 0
    mContentMargin := 0
    pos := ⟨0, 0⟩
    scale := 1
    visible := true
    activeWindow := false
    preferredWidth := -1
    preferredHeight := -1
    layoutMargin := none
    layoutItems := []
    activeSceneChangedConnected := false }

/-- The outcome of a constructor: what it wrote to the debug log, and the
statics and widget it leaves (or the fault it ran into). -/
structure Constructed where
  debugLog : List String
  result : Except Fault (Statics × UBToolWidget)

/-- The constructor `UBToolWidget(const QUrl& pUrl, QGraphicsItem *pParent)`. -/
def fromUrl (env : Env) (st : Statics) (pUrl : String) : Constructed :=
  let selected : Option UBGraphicsWidgetItem × List String :=
    match env.widgetType pUrl with
    | .Apple =>
      (some ⟨env.newItem .UBGraphicsAppleWidgetItem pUrl, .UBGraphicsAppleWidgetItem⟩, [])
    | .W3C =>
      (some ⟨env.newItem .UBGraphicsW3CWidgetItem pUrl, .UBGraphicsW3CWidgetItem⟩, [])
    | .Other => (none, ["UBToolWidget::UBToolWidget: Unknown widget Type"])
  ⟨selected.2, init env st (fresh selected.1)⟩

/-- The constructor `UBToolWidget(UBGraphicsWidgetItem *pWidget, QGraphicsItem *pParent)`. -/
def fromItem (env : Env) (st : Statics) (pWidget : Option UBGraphicsWidgetItem) : Constructed :=
  ⟨[], do
    let (st1, w1) ← init env st (fresh pWidget)
    let w2 ← javaScriptWindowObjectCleared env w1
    pure (st1, w2)⟩

/-- The primary button is down, as the specification words it: bit 0 of the
button mask is set. -/
def primaryButtonDown (buttons : Nat) : Prop :=
  buttons.testBit 0 = true

/-- The close icon's bounding box in widget-local coordinates,
[0, closeWidth) x [0, closeHeight). -/
def inCloseBox (icons : Icons) (p : QPointF) : Prop :=
  (0 ≤ p.x ∧ p.x < icons.sClosePixmap.width) ∧ (0 ≤ p.y ∧ p.y < icons.sClosePixmap.height)

/-- The unpin icon's bounding box in widget-local coordinates,
[margin, margin + unpinWidth) x [0, unpinHeight). -/
def inUnpinBox (icons : Icons) (margin : Int) (p : QPointF) : Prop :=
  ((margin : ℚ) ≤ p.x ∧ p.x < margin + icons.sUnpinPixmap.width)
    ∧ (0 ≤ p.y ∧ p.y < icons.sUnpinPixmap.height)

/-- Pointer events other than a press, as the scene and the event filter deliver
them to the widget. -/
inductive PointerEvent
  | move (event : QGraphicsSceneMouseEvent)
  | filtered (obj : Nat) (event : QEvent)
  | release (event : QGraphicsSceneMouseEvent)

/-- Delivery of one pointer event to the handler it belongs to. -/
def deliver (base : BaseHandlers) (icons : Icons) (w : UBToolWidget) :
    PointerEvent → Except Fault UBToolWidget
  | .move event => .ok (mouseMoveEvent base w event).widget
  | .filtered obj event => .ok (eventFilter base w obj event).1.widget
  | .release event => (mouseReleaseEvent base icons w event).map (fun r => r.widget)

/-- Delivery of a sequence of pointer events, in order. -/
def deliverAll (base : BaseHandlers) (icons : Icons) (w : UBToolWidget) :
    List PointerEvent → Except Fault UBToolWidget
  | [] => .ok w
  | e :: es => (deliver base icons w e).bind (fun w1 => deliverAll base icons w1 es)

/-- The names bound in the script window object of the widget's content item,
in binding order (none when there is no content item). -/
def boundNames (w : UBToolWidget) : List String :=
  match w.mGraphicsWidgetItem with
  | some item => item.windowObject.map Prod.fst
  | none => []

/-- Whether a paint pass draws the frame strip. -/
def drawsFrame (ops : List PaintOp) : Bool :=
  ops.any fun op =>
    match op with
    | .drawRoundedRect _ _ _ => true
    | _ => false

/-- Whether a paint pass draws the given icon. -/
def drawsIcon (icon : Icon) (ops : List PaintOp) : Bool :=
  ops.any fun op =>
    match op with
    | .drawPixmap _ _ i => i == icon
    | _ => false

end UBToolWidget

/-! ## Example inputs -/

/-- An Apple-class content item that can be content, 200 by 100, with an empty
script window object and the identity coordinate mapping. -/
def exampleItem : UBGraphicsWidgetItem :=
  { objectId := 7
    preferredWidth := 200
    preferredHeight := 100
    canBeContent := true
    geometry := ⟨0, 0, 200, 100⟩
    mainHtml := "index.html"
    acceptDrops := true
    pluginsEnabled := false
    opaquePaintEvent := true
    paletteBaseTransparent := false
    windowObjectClearedConnected := false
    eventFilterInstalled := false
    windowObject := []
    mapToItem := fun p => p
    cls := .UBGraphicsAppleWidgetItem }

/-- A W3C-class item, with identity 9, whose page still holds both bridges of
an earlier registration for scene 5 and an object bound under "other". -/
def usedW3CItem : UBGraphicsWidgetItem :=
  { exampleItem with
    objectId := 9
    windowObject :=
      [("sankore", .UBWidgetUniboardAPI 5), ("other", .other 3), ("widget", .UBW3CWidgetAPI 9)]
    cls := .UBGraphicsW3CWidgetItem }

/-- Icons of 26 by 26 pixels. -/
def exampleIcons : Icons := ⟨⟨26, 26⟩, ⟨26, 26⟩⟩

/-- A widget holding `exampleItem`, at (100, 100), unscaled, with frame width 20
and content margin 26 / 2 + 20 = 33. -/
def exampleWidget : UBToolWidget :=
  { UBToolWidget.fresh (some exampleItem) with
    mFrameWidth := 20
    mContentMargin := 33
    pos := ⟨100, 100⟩
    preferredWidth := 266
    preferredHeight := 166 }

/-- Collaborators with 26 by 26 icons and frame width 20, whose classifier knows
one Apple locator and one W3C locator and takes every other locator for an
unknown type. -/
def exampleEnv : Env :=
  { objectFrameWidth := 20
    closeSvg := ⟨26, 26⟩
    unpinSvg := ⟨26, 26⟩
    activeScene := 1
    widgetType := fun url =>
      if url = "clock.wdgt" then .Apple else if url = "clock.wgt" then .W3C else .Other
    newItem := fun _ _ => exampleItem.toWidgetItemData }

/-- The same collaborators with the frame-width setting at 0. -/
def zeroFrameEnv : Env := { exampleEnv with objectFrameWidth := 0 }

/-- Inherited handlers that accept nothing. -/
def ignoringBase : BaseHandlers :=
  ⟨fun _ => false, fun _ => false, fun _ => false, fun _ _ => false⟩

/-! ## Properties -/

namespace UBToolWidget

@[simp] theorem QPointF_add_x (p q : QPointF) : (p + q).x = p.x + q.x := rfl

@[simp] theorem QPointF_add_y (p q : QPointF) : (p + q).y = p.y + q.y := rfl

@[simp] theorem QPointF_sub_x (p q : QPointF) : (p - q).x = p.x - q.x := rfl

@[simp] theorem QPointF_sub_y (p q : QPointF) : (p - q).y = p.y - q.y := rfl

/-- The mask test of the code agrees with bit 0 of the button mask. -/
theorem leftButtonHeld_iff (buttons : Nat) :
    leftButtonHeld buttons = true ↔ primaryButtonDown buttons := by
  unfold leftButtonHeld primaryButtonDown Qt.LeftButton
  rw [Nat.and_one_is_mod, Nat.testBit_zero]
  rcases Nat.mod_two_eq_zero_or_one buttons with h | h <;> simp [h]

/-- Where a drag step puts the widget, the arithmetic being exact: the
compensating `setPos` overload is applied to the already stored position. -/
theorem mouseMoveEvent_pos (base : BaseHandlers) (w : UBToolWidget)
    (event : QGraphicsSceneMouseEvent) (hMove : w.mShouldMoveWidget = true)
    (hLeft : leftButtonHeld event.buttons = true) :
    (mouseMoveEvent base w event).widget.pos =
      ⟨(w.pos.x - w.mMousePressPos.x + event.pos.x - w.mContentMargin) * w.scale,
       (w.pos.y - w.mMousePressPos.y + event.pos.y - w.mContentMargin) * w.scale⟩ := by
  simp [mouseMoveEvent, hMove, hLeft, setPosPoint, setPos, QGraphicsItem_setPos]

/-- C5: after `mousePressEvent` the press position is the event position, the
should-move flag is set exactly when the inherited handler did not accept the
press and the primary button is down, and the event is accepted in every
case. -/
theorem mousePressEvent_transition (base : BaseHandlers) (w : UBToolWidget)
    (event : QGraphicsSceneMouseEvent) :
    (mousePressEvent base w event).widget.mMousePressPos = event.pos
    ∧ ((mousePressEvent base w event).widget.mShouldMoveWidget = true ↔
        (base.mousePressEvent event = false ∧ primaryButtonDown event.buttons))
    ∧ (mousePressEvent base w event).event.accepted = true := by
  refine ⟨rfl, ?_, rfl⟩
  rw [← leftButtonHeld_iff]
  simp [mousePressEvent]

/-- C1: a press at (10, 10) that the content does not consume, followed by a
move to (15, 12) with the primary button held, on a widget at (100, 100) with
content margin 33 and scale 1, leaves the widget at (72, 69), which is not
(100, 100) + (5, 2). -/
theorem mouseMoveEvent_drag_misses_delta :
    (mousePressEvent ignoringBase exampleWidget ⟨⟨10, 10⟩, 1, false⟩).widget.mShouldMoveWidget = true
    ∧ (mouseMoveEvent ignoringBase
        (mousePressEvent ignoringBase exampleWidget ⟨⟨10, 10⟩, 1, false⟩).widget
        ⟨⟨15, 12⟩, 1, false⟩).widget.pos = ⟨72, 69⟩
    ∧ (mouseMoveEvent ignoringBase
        (mousePressEvent ignoringBase exampleWidget ⟨⟨10, 10⟩, 1, false⟩).widget
        ⟨⟨15, 12⟩, 1, false⟩).widget.pos
        ≠ exampleWidget.pos + ((⟨15, 12⟩ : QPointF) - ⟨10, 10⟩) := by
  have hPos : (mouseMoveEvent ignoringBase
      (mousePressEvent ignoringBase exampleWidget ⟨⟨10, 10⟩, 1, false⟩).widget
      ⟨⟨15, 12⟩, 1, false⟩).widget.pos = ⟨72, 69⟩ := by
    rw [mouseMoveEvent_pos _ _ _ (by decide) (by decide)]
    simp [mousePressEvent, exampleWidget, fresh]
    norm_num
  refine ⟨by decide, hPos, ?_⟩
  rw [hPos]
  intro h
  have hx := congrArg QPointF.x h
  simp [exampleWidget, fresh] at hx
  norm_num at hx

/-- At scale 0 `setPos` stores the same position, (0, 0), for the inputs (1, 1)
and (2, 2): the stored position does not determine the input. -/
theorem setPos_at_zero_scale :
    (({ exampleWidget with scale := 0 } : UBToolWidget).setPos 1 1).pos = ⟨0, 0⟩
    ∧ (({ exampleWidget with scale := 0 } : UBToolWidget).setPos 2 2).pos = ⟨0, 0⟩ := by
  constructor <;> simp [setPos, QGraphicsItem_setPos]

/-- C3: `mouseReleaseEvent` dispatches on the release position. Inside the
close box the widget is hidden and the event accepted (so a release at (0, 0)
hides a widget whose close icon is not empty); otherwise, if the content can be
content and the position is inside the unpin box, promotion to the scene is
requested and the event accepted; otherwise nothing is hidden or promoted and
the inherited release handler runs. -/
theorem mouseReleaseEvent_dispatch (base : BaseHandlers) (icons : Icons) (w : UBToolWidget)
    (item : UBGraphicsWidgetItem) (event : QGraphicsSceneMouseEvent)
    (hItem : w.mGraphicsWidgetItem = some item) :
    (inCloseBox icons event.pos →
        mouseReleaseEvent base icons w event =
          .ok ⟨{ w with mShouldMoveWidget := false, visible := false },
            { event with accepted := true }, []⟩)
    ∧ (¬ inCloseBox icons event.pos →
        item.canBeContent = true ∧ inUnpinBox icons w.mContentMargin event.pos →
        mouseReleaseEvent base icons w event =
          .ok ⟨{ w with mShouldMoveWidget := false }, { event with accepted := true },
            [.boardController_moveToolWidgetToScene]⟩)
    ∧ (¬ inCloseBox icons event.pos →
        ¬ (item.canBeContent = true ∧ inUnpinBox icons w.mContentMargin event.pos) →
        mouseReleaseEvent base icons w event =
          .ok ⟨{ w with mShouldMoveWidget := false },
            { event with accepted := base.mouseReleaseEvent event },
            [.QGraphicsWidget_mouseReleaseEvent]⟩)
    ∧ (0 < icons.sClosePixmap.width → 0 < icons.sClosePixmap.height →
        event.pos = ⟨0, 0⟩ →
        ∃ r, mouseReleaseEvent base icons w event = .ok r ∧ r.widget.visible = false
          ∧ r.event.accepted = true) := by
  refine ⟨?_, ?_, ?_, ?_⟩
  · intro hc
    have hc2 : event.pos.x ≥ 0 ∧ event.pos.x < icons.sClosePixmap.width
        ∧ event.pos.y ≥ 0 ∧ event.pos.y < icons.sClosePixmap.height :=
      ⟨hc.1.1, hc.1.2, hc.2.1, hc.2.2⟩
    simp only [mouseReleaseEvent, if_pos hc2]
  · intro hc hu
    have hc2 : ¬ (event.pos.x ≥ 0 ∧ event.pos.x < icons.sClosePixmap.width
        ∧ event.pos.y ≥ 0 ∧ event.pos.y < icons.sClosePixmap.height) :=
      fun h => hc ⟨⟨h.1, h.2.1⟩, h.2.2.1, h.2.2.2⟩
    have hu2 : item.canBeContent = true ∧ event.pos.x ≥ w.mContentMargin
        ∧ event.pos.x < w.mContentMargin + icons.sUnpinPixmap.width
        ∧ event.pos.y ≥ 0 ∧ event.pos.y < icons.sUnpinPixmap.height :=
      ⟨hu.1, hu.2.1.1, hu.2.1.2, hu.2.2.1, hu.2.2.2⟩
    simp only [mouseReleaseEvent, if_neg hc2, hItem, if_pos hu2]
  · intro hc hu
    have hc2 : ¬ (event.pos.x ≥ 0 ∧ event.pos.x < icons.sClosePixmap.width
        ∧ event.pos.y ≥ 0 ∧ event.pos.y < icons.sClosePixmap.height) :=
      fun h => hc ⟨⟨h.1, h.2.1⟩, h.2.2.1, h.2.2.2⟩
    have hu2 : ¬ (item.canBeContent = true ∧ event.pos.x ≥ w.mContentMargin
        ∧ event.pos.x < w.mContentMargin + icons.sUnpinPixmap.width
        ∧ event.pos.y ≥ 0 ∧ event.pos.y < icons.sUnpinPixmap.height) :=
      fun h => hu ⟨h.1, ⟨h.2.1, h.2.2.1⟩, h.2.2.2.1, h.2.2.2.2⟩
    simp only [mouseReleaseEvent, if_neg hc2, hItem, if_neg hu2]
  · intro hw hh hp
    have hc2 : event.pos.x ≥ 0 ∧ event.pos.x < icons.sClosePixmap.width
        ∧ event.pos.y ≥ 0 ∧ event.pos.y < icons.sClosePixmap.height := by
      rw [hp]
      have hw2 : (0 : ℚ) < icons.sClosePixmap.width := by exact_mod_cast hw
      have hh2 : (0 : ℚ) < icons.sClosePixmap.height := by exact_mod_cast hh
      exact ⟨le_refl _, hw2, le_refl _, hh2⟩
    refine ⟨⟨{ w with mShouldMoveWidget := false, visible := false },
      { event with accepted := true }, []⟩, ?_, rfl, rfl⟩
    simp only [mouseReleaseEvent, if_pos hc2]

/-- An instance of `mouseReleaseEvent_dispatch`: a release at (0, 0) on the
example widget. -/
theorem mouseReleaseEvent_dispatch_witness :
    exampleWidget.mGraphicsWidgetItem = some exampleItem
    ∧ ∃ r, mouseReleaseEvent ignoringBase exampleIcons exampleWidget ⟨⟨0, 0⟩, 0, false⟩ = .ok r
        ∧ r.widget.visible = false ∧ r.event.accepted = true :=
  ⟨rfl, (mouseReleaseEvent_dispatch ignoringBase exampleIcons exampleWidget exampleItem
    ⟨⟨0, 0⟩, 0, false⟩ rfl).2.2.2 (by decide) (by decide) rfl⟩

/-- What `init` leaves when the content item is set: both statics, and the
margin derived from the close icon now in the statics. -/
theorem init_margin (env : Env) (st st1 : Statics) (w w1 : UBToolWidget)
    (hInit : init env st w = .ok (st1, w1)) :
    ∃ cp up, st1 = ⟨some cp, some up⟩
      ∧ w1.mFrameWidth = env.objectFrameWidth
      ∧ w1.mContentMargin = Int.tdiv cp.width 2 + env.objectFrameWidth := by
  unfold init at hInit
  cases hI : w.mGraphicsWidgetItem with
  | none => simp [hI] at hInit
  | some item =>
    simp only [hI, Except.ok.injEq, Prod.mk.injEq] at hInit
    obtain ⟨h1, h2⟩ := hInit
    subst h1 h2
    exact ⟨_, _, rfl, rfl, rfl⟩

/-- C4, as stated, fails when the frame width is 0: `initialize` then computes
margin 26 / 2 + 0 = 13 for a 26-pixel close icon, and the point (13, 0) lies in
the close box and in the unpin box. -/
theorem hit_regions_overlap_at_zero_frame_width :
    (init zeroFrameEnv ⟨none, none⟩ (fresh (some exampleItem))).map
        (fun r => (r.1, r.2.mContentMargin)) = .ok (⟨some ⟨26, 26⟩, some ⟨26, 26⟩⟩, 13)
    ∧ inCloseBox ⟨⟨26, 26⟩, ⟨26, 26⟩⟩ ⟨13, 0⟩
    ∧ inUnpinBox ⟨⟨26, 26⟩, ⟨26, 26⟩⟩ 13 ⟨13, 0⟩ := by
  refine ⟨rfl, ?_, ?_⟩
  · simp only [inCloseBox]
    norm_num
  · simp only [inUnpinBox]
    norm_num

/-- C4, amended: with the margin closeWidth / 2 + frameWidth computed by
`initialize`, whenever the frame width is at least closeWidth - closeWidth / 2
(so that the margin reaches the close icon's width) no point lies both in the
close box and in the unpin box. -/
theorem hit_regions_disjoint (env : Env) (st st1 : Statics) (w w1 : UBToolWidget)
    (cp up : QPixmap) (hInit : init env st w = .ok (st1, w1))
    (hStatics : st1 = ⟨some cp, some up⟩)
    (hFrame : cp.width - Int.tdiv cp.width 2 ≤ env.objectFrameWidth) :
    w1.mContentMargin = Int.tdiv cp.width 2 + env.objectFrameWidth
    ∧ ∀ p : QPointF, ¬ (inCloseBox ⟨cp, up⟩ p ∧ inUnpinBox ⟨cp, up⟩ w1.mContentMargin p) := by
  obtain ⟨cp2, up2, hst, -, hm⟩ := init_margin env st st1 w w1 hInit
  rw [hst] at hStatics
  simp only [Statics.mk.injEq, Option.some.injEq] at hStatics
  obtain ⟨hcp, -⟩ := hStatics
  subst hcp
  refine ⟨hm, ?_⟩
  rintro p ⟨hc, hu⟩
  have h1 : p.x < (cp2.width : ℚ) := hc.1.2
  have h2 : (w1.mContentMargin : ℚ) ≤ p.x := hu.1.1
  have h3 : (cp2.width : ℚ) ≤ (w1.mContentMargin : ℚ) := by
    have : cp2.width ≤ w1.mContentMargin := by rw [hm]; linarith
    exact_mod_cast this
  linarith

/-- An instance of `hit_regions_disjoint`: frame width 20 and 26-pixel icons. -/
theorem hit_regions_disjoint_witness :
    ∃ w1, init exampleEnv ⟨none, none⟩ (fresh (some exampleItem)) =
        .ok (⟨some ⟨26, 26⟩, some ⟨26, 26⟩⟩, w1)
      ∧ (26 : Int) - Int.tdiv 26 2 ≤ exampleEnv.objectFrameWidth
      ∧ w1.mContentMargin = Int.tdiv 26 2 + exampleEnv.objectFrameWidth
      ∧ ¬ (inCloseBox ⟨⟨26, 26⟩, ⟨26, 26⟩⟩ ⟨30, 0⟩
            ∧ inUnpinBox ⟨⟨26, 26⟩, ⟨26, 26⟩⟩ w1.mContentMargin ⟨30, 0⟩) := by
  have hex : ∃ w1, init exampleEnv ⟨none, none⟩ (fresh (some exampleItem)) =
      .ok (⟨some ⟨26, 26⟩, some ⟨26, 26⟩⟩, w1) := ⟨_, rfl⟩
  obtain ⟨w1, hw1⟩ := hex
  have h := hit_regions_disjoint exampleEnv ⟨none, none⟩ ⟨some ⟨26, 26⟩, some ⟨26, 26⟩⟩
    (fresh (some exampleItem)) w1 ⟨26, 26⟩ ⟨26, 26⟩ hw1 rfl (by decide)
  exact ⟨w1, hw1, by decide, h.1, h.2 ⟨30, 0⟩⟩

/-- With the should-move flag clear, `mouseMoveEvent` leaves the widget as it
is. -/
theorem mouseMoveEvent_idle (base : BaseHandlers) (w : UBToolWidget)
    (event : QGraphicsSceneMouseEvent) (hIdle : w.mShouldMoveWidget = false) :
    (mouseMoveEvent base w event).widget = w := by
  simp [mouseMoveEvent, hIdle]

/-- With the should-move flag clear, `eventFilter` leaves the widget as it
is. -/
theorem eventFilter_idle (base : BaseHandlers) (w : UBToolWidget) (obj : Nat) (event : QEvent)
    (hIdle : w.mShouldMoveWidget = false) :
    (eventFilter base w obj event).1.widget = w := by
  unfold eventFilter
  cases w.mGraphicsWidgetItem <;> simp [hIdle]

/-- On a widget whose content item is set, `mouseReleaseEvent` returns, clears
the should-move flag, and keeps the position and the content item. -/
theorem mouseReleaseEvent_idle (base : BaseHandlers) (icons : Icons) (w : UBToolWidget)
    (item : UBGraphicsWidgetItem) (event : QGraphicsSceneMouseEvent)
    (hItem : w.mGraphicsWidgetItem = some item) :
    ∃ r, mouseReleaseEvent base icons w event = .ok r
      ∧ r.widget.mShouldMoveWidget = false ∧ r.widget.pos = w.pos
      ∧ r.widget.mGraphicsWidgetItem = some item := by
  unfold mouseReleaseEvent
  simp only [hItem]
  split
  · exact ⟨_, rfl, rfl, rfl, rfl⟩
  · split
    · exact ⟨_, rfl, rfl, rfl, rfl⟩
    · exact ⟨_, rfl, rfl, rfl, rfl⟩

/-- From an idle widget whose content item is set, any sequence of moves,
filtered events and releases is handled without fault and leaves the position
where it was and the widget idle. -/
theorem deliverAll_idle (base : BaseHandlers) (icons : Icons) (events : List PointerEvent) :
    ∀ (w : UBToolWidget) (item : UBGraphicsWidgetItem),
      w.mGraphicsWidgetItem = some item → w.mShouldMoveWidget = false →
      ∃ w2, deliverAll base icons w events = .ok w2 ∧ w2.pos = w.pos
        ∧ w2.mShouldMoveWidget = false := by
  induction events with
  | nil => intro w item _ hIdle; exact ⟨w, rfl, rfl, hIdle⟩
  | cons e es ih =>
    intro w item hItem hIdle
    cases e with
    | move event =>
      obtain ⟨w2, h2, hp, hf⟩ := ih w item hItem hIdle
      refine ⟨w2, ?_, hp, hf⟩
      simp only [deliverAll, deliver, mouseMoveEvent_idle base w event hIdle]
      exact h2
    | filtered obj event =>
      obtain ⟨w2, h2, hp, hf⟩ := ih w item hItem hIdle
      refine ⟨w2, ?_, hp, hf⟩
      simp only [deliverAll, deliver, eventFilter_idle base w obj event hIdle]
      exact h2
    | release event =>
      obtain ⟨r, hr, hrf, hrp, hri⟩ := mouseReleaseEvent_idle base icons w item event hItem
      obtain ⟨w2, h2, hp, hf⟩ := ih r.widget item hri hrf
      refine ⟨w2, ?_, hp.trans hrp, hf⟩
      simp only [deliverAll, deliver, hr]
      exact h2

/-- C6: whichever branch a release takes, the should-move flag is false
afterwards, and from then on no move delivered through `mouseMoveEvent` or
through `eventFilter` (nor a further release) changes the widget's position:
only a press can make it movable again. -/
theorem mouseReleaseEvent_returns_to_idle (base : BaseHandlers) (icons : Icons)
    (w : UBToolWidget) (item : UBGraphicsWidgetItem) (event : QGraphicsSceneMouseEvent)
    (hItem : w.mGraphicsWidgetItem = some item) :
    ∃ r, mouseReleaseEvent base icons w event = .ok r
      ∧ r.widget.mShouldMoveWidget = false
      ∧ r.widget.pos = w.pos
      ∧ ∀ events : List PointerEvent,
          ∃ w2, deliverAll base icons r.widget events = .ok w2 ∧ w2.pos = r.widget.pos
            ∧ w2.mShouldMoveWidget = false := by
  obtain ⟨r, hr, hrf, hrp, hri⟩ := mouseReleaseEvent_idle base icons w item event hItem
  exact ⟨r, hr, hrf, hrp, fun events => deliverAll_idle base icons events r.widget item hri hrf⟩

/-- An instance of `mouseReleaseEvent_returns_to_idle`: a release during a drag,
then a move and a filtered move with the primary button held. -/
theorem mouseReleaseEvent_returns_to_idle_witness :
    ({ exampleWidget with mShouldMoveWidget := true } : UBToolWidget).mGraphicsWidgetItem
        = some exampleItem
    ∧ ∃ r, mouseReleaseEvent ignoringBase exampleIcons
          { exampleWidget with mShouldMoveWidget := true } ⟨⟨50, 50⟩, 0, false⟩ = .ok r
        ∧ r.widget.mShouldMoveWidget = false
        ∧ ∃ w2, deliverAll ignoringBase exampleIcons r.widget
              [.move ⟨⟨60, 55⟩, 1, false⟩, .filtered 7 ⟨.MouseMove, ⟨3, 4⟩, 1, false⟩] = .ok w2
            ∧ w2.pos = r.widget.pos := by
  obtain ⟨r, hr, hf, _, hall⟩ := mouseReleaseEvent_returns_to_idle ignoringBase exampleIcons
    { exampleWidget with mShouldMoveWidget := true } exampleItem ⟨⟨50, 50⟩, 0, false⟩ rfl
  obtain ⟨w2, h2, hp, _⟩ :=
    hall [.move ⟨⟨60, 55⟩, 1, false⟩, .filtered 7 ⟨.MouseMove, ⟨3, 4⟩, 1, false⟩]
  exact ⟨rfl, r, hr, hf, w2, h2, hp⟩

/-- For the two supported locator types the constructor builds the item of the
matching class and initialises the widget around it. -/
theorem fromUrl_selects (env : Env) (st : Statics) (pUrl : String) :
    (env.widgetType pUrl = .Apple →
      ∃ st1 w1 item, (fromUrl env st pUrl).result = .ok (st1, w1)
        ∧ w1.mGraphicsWidgetItem = some item ∧ item.cls = .UBGraphicsAppleWidgetItem)
    ∧ (env.widgetType pUrl = .W3C →
      ∃ st1 w1 item, (fromUrl env st pUrl).result = .ok (st1, w1)
        ∧ w1.mGraphicsWidgetItem = some item ∧ item.cls = .UBGraphicsW3CWidgetItem) := by
  constructor <;> intro h <;> simp only [fromUrl, h, init, fresh] <;>
    exact ⟨_, _, _, rfl, rfl, rfl⟩

/-- For a locator of any other type the constructor logs one line, leaves the
content item null and runs into the null dereference of `initialize`. -/
theorem fromUrl_other (env : Env) (st : Statics) (pUrl : String)
    (hType : env.widgetType pUrl = .Other) :
    (fromUrl env st pUrl).debugLog = ["UBToolWidget::UBToolWidget: Unknown widget Type"]
    ∧ (fromUrl env st pUrl).result = .error .nullDereference := by
  simp only [fromUrl, hType, init, fresh, and_self]

/-- C7: for the locator "notes.txt", whose type is neither Apple nor W3C, the
constructor reports nothing to its caller: it writes a debug line, leaves the
content item null and calls `initialize`, which dereferences the null
pointer. -/
theorem fromUrl_unknown_type_dereferences_null :
    exampleEnv.widgetType "notes.txt" = .Other
    ∧ (fromUrl exampleEnv ⟨none, none⟩ "notes.txt").debugLog
        = ["UBToolWidget::UBToolWidget: Unknown widget Type"]
    ∧ (fromUrl exampleEnv ⟨none, none⟩ "notes.txt").result = .error .nullDereference := by
  have hType : exampleEnv.widgetType "notes.txt" = .Other := by decide
  exact ⟨hType, fromUrl_other exampleEnv ⟨none, none⟩ "notes.txt" hType⟩

/-- C8: with a null content item only `naturalCenter` is guarded. Script-bridge
registration, `initialize` and the painting of an active widget dereference the
null pointer; an inactive widget paints the inherited rendering alone. -/
theorem null_content_item_only_naturalCenter_guarded (env : Env) (st : Statics) (icons : Icons)
    (w : UBToolWidget) :
    ({ w with mGraphicsWidgetItem := none } : UBToolWidget).naturalCenter = ⟨0, 0⟩
    ∧ javaScriptWindowObjectCleared env { w with mGraphicsWidgetItem := none }
        = .error .nullDereference
    ∧ init env st { w with mGraphicsWidgetItem := none } = .error .nullDereference
    ∧ paint icons { w with mGraphicsWidgetItem := none, activeWindow := true }
        = .error .nullDereference
    ∧ paint icons { w with mGraphicsWidgetItem := none, activeWindow := false }
        = .ok [.QGraphicsWidget_paint] := by
  refine ⟨rfl, rfl, rfl, ?_, ?_⟩
  · simp [paint]
  · simp [paint]

/-- C10: a paint pass always starts with the inherited rendering; the frame
strip and the close icon are drawn only when the widget is active (and then
they are), an inactive widget draws nothing beyond the inherited rendering, and
on an active widget the unpin icon is drawn if and only if the content item can
be content. Over all paint passes, the unpin icon is drawn exactly when the
widget is active and the content can be content. -/
theorem paint_chrome (icons : Icons) (w : UBToolWidget) (item : UBGraphicsWidgetItem)
    (hItem : w.mGraphicsWidgetItem = some item) :
    ∃ ops, paint icons w = .ok ops
      ∧ ops.head? = some .QGraphicsWidget_paint
      ∧ (w.activeWindow = false → ops = [.QGraphicsWidget_paint])
      ∧ drawsFrame ops = w.activeWindow
      ∧ drawsIcon .sClosePixmap ops = w.activeWindow
      ∧ (w.activeWindow = true →
          (drawsIcon .sUnpinPixmap ops = true ↔ item.canBeContent = true))
      ∧ (w.activeWindow = false → drawsIcon .sUnpinPixmap ops = false)
      ∧ (drawsIcon .sUnpinPixmap ops = true ↔
          (w.activeWindow = true ∧ item.canBeContent = true)) := by
  unfold paint
  cases hA : w.activeWindow <;> cases hC : item.canBeContent <;>
    simp [hItem, hC, drawsFrame, drawsIcon]

/-- An instance of `paint_chrome` on the example widget when active. -/
theorem paint_chrome_witness :
    ({ exampleWidget with activeWindow := true } : UBToolWidget).mGraphicsWidgetItem
        = some exampleItem
    ∧ ∃ ops, paint exampleIcons { exampleWidget with activeWindow := true } = .ok ops
        ∧ drawsIcon .sClosePixmap ops = true
        ∧ drawsIcon .sUnpinPixmap ops = true := by
  obtain ⟨ops, h, _, _, _, hc, hu, _, _⟩ :=
    paint_chrome exampleIcons { exampleWidget with activeWindow := true } exampleItem rfl
  exact ⟨rfl, ops, h, hc, (hu rfl).2 rfl⟩

/-- The class test of the code, `dynamic_cast<UBGraphicsW3CWidgetItem*>`,
succeeds exactly on items of the W3C class. -/
theorem isW3C_iff (item : UBGraphicsWidgetItem) :
    item.isW3C = true ↔ item.cls = .UBGraphicsW3CWidgetItem := by
  cases hC : item.cls <;> simp [UBGraphicsWidgetItem.isW3C, hC]

/-- Two registrations on the W3C-class example item, for scene 1 and then for
scene 2: the stale bridges are replaced, each name is bound once, and the
foreign binding stays. -/
theorem javaScriptWindowObjectCleared_twice_on_w3c_item :
    ∃ w1 w2 item2, javaScriptWindowObjectCleared exampleEnv (fresh (some usedW3CItem)) = .ok w1
      ∧ javaScriptWindowObjectCleared { exampleEnv with activeScene := 2 } w1 = .ok w2
      ∧ w2.mGraphicsWidgetItem = some item2
      ∧ item2.windowObject =
          [("other", .other 3), ("sankore", .UBWidgetUniboardAPI 2), ("widget", .UBW3CWidgetAPI 9)]
      ∧ boundNames w1 = ["other", "sankore", "widget"] := by
  refine ⟨_, _, _, rfl, rfl, rfl, ?_, ?_⟩
  · decide
  · decide

/-- A widget that `init` returns has its content item set. -/
theorem init_ok_item (env : Env) (st st1 : Statics) (w w1 : UBToolWidget)
    (hInit : init env st w = .ok (st1, w1)) :
    ∃ item, w1.mGraphicsWidgetItem = some item := by
  unfold init at hInit
  cases hI : w.mGraphicsWidgetItem with
  | none => simp [hI] at hInit
  | some item =>
    simp only [hI, Except.ok.injEq, Prod.mk.injEq] at hInit
    obtain ⟨-, h2⟩ := hInit
    subst h2
    exact ⟨_, rfl⟩

/-- A widget that the locator constructor returns has its content item set: the
event handlers are only ever run on such widgets. -/
theorem fromUrl_ok_item (env : Env) (st st1 : Statics) (pUrl : String) (w1 : UBToolWidget)
    (hOk : (fromUrl env st pUrl).result = .ok (st1, w1)) :
    ∃ item, w1.mGraphicsWidgetItem = some item :=
  init_ok_item env st st1 _ w1 hOk

/-- When the margin stays below the close icon's width (and the icons are not
empty), the point (margin, 0) lies in both hit regions: the bound of
`hit_regions_disjoint` cannot be relaxed. -/
theorem hit_regions_overlap_of_small_margin (icons : Icons) (margin : Int)
    (hClose : 0 < icons.sClosePixmap.height) (hUnpinW : 0 < icons.sUnpinPixmap.width)
    (hUnpinH : 0 < icons.sUnpinPixmap.height) (hLow : 0 ≤ margin)
    (hHigh : margin < icons.sClosePixmap.width) :
    inCloseBox icons ⟨margin, 0⟩ ∧ inUnpinBox icons margin ⟨margin, 0⟩ := by
  have h1 : (0 : ℚ) < icons.sClosePixmap.height := by exact_mod_cast hClose
  have h2 : (0 : ℚ) < icons.sUnpinPixmap.width := by exact_mod_cast hUnpinW
  have h3 : (0 : ℚ) < icons.sUnpinPixmap.height := by exact_mod_cast hUnpinH
  have h4 : (0 : ℚ) ≤ margin := by exact_mod_cast hLow
  have h5 : (margin : ℚ) < icons.sClosePixmap.width := by exact_mod_cast hHigh
  refine ⟨⟨⟨h4, h5⟩, le_refl _, h1⟩, ⟨le_refl _, ?_⟩, le_refl _, h3⟩
  show (margin : ℚ) < margin + icons.sUnpinPixmap.width
  linarith

end UBToolWidget

end OpenBoard
